import Mathlib

/-!
Shallow embedding of the selection-to-overlay interaction engine of
nova-translate, from src/contents/entry.tsx. The Entry component keeps six
pieces of React state (sourceText, textId, targetText, showEntryPanel,
sourceTextRect, targetLanguage) and reacts to five kinds of discrete events:
the option+n hotkey, incoming ai-port messages, target-language selection,
document scroll, and document mousedown. Each handler becomes a pure function
on an explicit state record; id generation by lodash uniqueId (the decimal
string of a global counter starting at 1) is modelled by the counter value
itself, since the decimal encoding is injective and the component only ever
compares ids for equality; the value 0 stands for the initial empty textId
string, which uniqueId never produces. DOMRect coordinates are modelled as
rationals.
-/

namespace NovaTranslate

/-- Modelled from the spec: the enumerated language list lives in
config/common.ts, which is not under src. The spec describes a fixed
enumerated language set whose default resolves to English, and its examples
mention French; the concrete list beyond that is immaterial to the claims. -/
inductive LanguageEnum where
  | English
  | French
  | Chinese
  deriving DecidableEq, Repr

/-- Viewport rectangle of the selected text, as destructured from
range.getBoundingClientRect() in entry.tsx (lines 103-104 and 129-130). -/
structure Rect where
  left : Rat
  right : Rat
  top : Rat
  bottom : Rat
  deriving DecidableEq, Repr

/-- Anchor point for the overlay panel. -/
structure Pos where
  x : Rat
  y : Rat
  deriving DecidableEq, Repr

/-- Payload of aiPort.send at entry.tsx lines 51-54. -/
structure Request where
  uniqueId : Nat
  text : String
  deriving DecidableEq, Repr

/-- Discriminated payload of an incoming port message (entry.tsx lines
64-81): TRANSLATE_TEXT_PART carries data.text, TRANSLATE_TEXT_ERROR carries
data.error.message. -/
inductive MessagePayload where
  | part (text : String)
  | error (message : String)
  deriving DecidableEq, Repr

/-- Incoming port message: both kinds carry data.uniqueId. -/
structure PortMessage where
  uniqueId : Nat
  payload : MessagePayload
  deriving DecidableEq, Repr

/-- Fields read from window.getSelection(): isCollapsed, the bounding rect of
its first range, and its toString() text. The absent-selection case is
Option.none at the call sites. -/
structure Selection where
  isCollapsed : Bool
  rect : Rect
  text : String
  deriving DecidableEq, Repr

/-- React state of the Entry component (entry.tsx lines 27-35), together with
the lodash counter that backs uniqueId(). -/
structure EntryState where
  sourceText : String
  textId : Nat
  targetText : String
  showEntryPanel : Bool
  sourceTextRect : Rect
  targetLanguage : LanguageEnum
  idCounter : Nat
  deriving DecidableEq, Repr

/-- Default resolution of the useStorage hook (lines 32-35): the persisted
value when one is set, LanguageEnum.English when undefined. -/
def initialTargetLanguage : Option LanguageEnum → LanguageEnum
  | none => LanguageEnum.English
  | some v => v

/-- Initial component state from the useState initializers (lines 27-31);
the lodash counter starts at 0, so the first issued id is 1. -/
def initState (stored : Option LanguageEnum) : EntryState :=
  { sourceText := ""
    textId := 0
    targetText := ""
    showEntryPanel := false
    sourceTextRect := { left := 0, right := 0, top := 0, bottom := 0 }
    targetLanguage := initialTargetLanguage stored
    idCounter := 0 }

/-- Memoized entryPanelPosition (lines 38-43): bottom middle of the selected
text rectangle. -/
def entryPanelPosition (r : Rect) : Pos :=
  { x := r.left + (r.right - r.left) / 2
    y := r.bottom + 10 }

/-- Function getTranslatedText (lines 45-55): issue a fresh uniqueId, store it
as textId, clear targetText, store selectedText as sourceText, and send the
request. The sent text is the JS expression selectedText || sourceText, which
falls back to sourceText when selectedText is the empty string. The component
re-creates this function on every render and each instance closes over the
sourceText state value of its own render, so the fallback reads that
closure-captured value, passed explicitly here as closureSourceText: the
Mousetrap handler, bound once in a mount-only effect (deps []), holds the
first-render instance whose captured sourceText is the initial empty string,
while handleTargetLanguageChange is re-created each render and captures the
current sourceText. The state setters and the lodash counter are stable across
renders, so the state transition itself acts on the live state. -/
def getTranslatedText (closureSourceText : String) (s : EntryState)
    (selectedText : String) : EntryState × Request :=
  let id := s.idCounter + 1
  ({ s with idCounter := id, textId := id, targetText := "",
            sourceText := selectedText },
   { uniqueId := id
     text := if selectedText = "" then closureSourceText else selectedText })

/-- Function handleTargetLanguageChange (lines 57-60): store the new language,
then call getTranslatedText with the current sourceText. This callback is
re-created on every render, so the getTranslatedText instance it calls has
captured the current sourceText, the same value it passes as the argument. -/
def handleTargetLanguageChange (s : EntryState) (language : LanguageEnum) :
    EntryState × Request :=
  getTranslatedText s.sourceText { s with targetLanguage := language } s.sourceText

/-- Port listener (lines 63-85): a TRANSLATE_TEXT_PART whose uniqueId matches
the current textId appends its text to targetText; a matching
TRANSLATE_TEXT_ERROR replaces targetText with the error message; either kind
returns early when the id mismatches. -/
def listen (s : EntryState) (m : PortMessage) : EntryState :=
  match m.payload with
  | MessagePayload.part text =>
      if m.uniqueId ≠ s.textId then s
      else { s with targetText := s.targetText ++ text }
  | MessagePayload.error message =>
      if m.uniqueId ≠ s.textId then s
      else { s with targetText := message }

/-- Hotkey handler bound to option+n (lines 89-113): a null selection returns
at once; a collapsed selection only hides the panel; otherwise the trimmed
selection text is cut to MAX_TRANSLATION_LENGTH characters, the panel is shown,
the rect is stored, and getTranslatedText runs on the captured text. The
effect binding this handler runs only at mount (deps []), so the callback
permanently holds the first-render getTranslatedText instance, whose
closure-captured sourceText is the initial empty string.
MAX_TRANSLATION_LENGTH is imported from config/common.ts, which is not under
src, and the spec fixes no numeric value, so the cap is a parameter here. -/
def handleHotkey (maxTranslationLength : Nat) (s : EntryState)
    (selection : Option Selection) : EntryState × Option Request :=
  match selection with
  | none => (s, none)
  | some sel =>
    if sel.isCollapsed then
      ({ s with showEntryPanel := false }, none)
    else
      let selectedText := (sel.text.trim).take maxTranslationLength
      let s1 := { s with showEntryPanel := true, sourceTextRect := sel.rect }
      let p := getTranslatedText "" s1 selectedText
      (p.1, some p.2)

/-- Debounced scroll handler (lines 116-137): returns unchanged when the panel
is hidden, the selection is absent, or the selection is collapsed; otherwise
it stores a fresh bounding rect and touches nothing else. -/
def handleScroll (s : EntryState) (selection : Option Selection) : EntryState :=
  if !s.showEntryPanel then s
  else
    match selection with
    | none => s
    | some sel =>
      if sel.isCollapsed then s
      else { s with sourceTextRect := sel.rect }

/-- Mousedown handler (lines 140-152): a press whose target has localName
plasmo-csui (the extension root element) is ignored; any other press hides the
panel and zeroes sourceTextRect. -/
def handleMouseDown (s : EntryState) (targetLocalName : String) : EntryState :=
  if targetLocalName = "plasmo-csui" then s
  else { s with showEntryPanel := false
                sourceTextRect := { left := 0, right := 0, top := 0, bottom := 0 } }

/-- Discrete UI events driving the component. -/
inductive Event where
  | hotkey (selection : Option Selection)
  | portMsg (m : PortMessage)
  | languageChange (language : LanguageEnum)
  | scroll (selection : Option Selection)
  | mouseDown (targetLocalName : String)
  deriving Repr

/-- One event step, returning the next state and the request sent on the ai
port, when any. -/
def stepEmit (maxTranslationLength : Nat) (s : EntryState) :
    Event → EntryState × Option Request
  | Event.hotkey selection => handleHotkey maxTranslationLength s selection
  | Event.portMsg m => (listen s m, none)
  | Event.languageChange language =>
      let p := handleTargetLanguageChange s language
      (p.1, some p.2)
  | Event.scroll selection => (handleScroll s selection, none)
  | Event.mouseDown tag => (handleMouseDown s tag, none)

/-- State part of one event step. -/
def step (maxTranslationLength : Nat) (s : EntryState) (e : Event) : EntryState :=
  (stepEmit maxTranslationLength s e).1

/-- Run a list of events from a state. -/
def run (maxTranslationLength : Nat) (s : EntryState) (es : List Event) : EntryState :=
  List.foldl (step maxTranslationLength) s es

/-- Session ids issued (sent as request uniqueId) along a list of events. -/
def issuedIds (maxTranslationLength : Nat) (s : EntryState) : List Event → List Nat
  | [] => []
  | e :: es =>
      (match (stepEmit maxTranslationLength s e).2 with
       | some r => [r.uniqueId]
       | none => []) ++
      issuedIds maxTranslationLength (step maxTranslationLength s e) es

/-- Concatenation of a list of strings in order. -/
def strConcat (l : List String) : String :=
  List.foldl (fun a b => a ++ b) "" l

/-- Concrete component state used to instantiate the theorems: a session with
id 1 is current, text has been accumulated, and the panel is visible at a
nonzero rect. -/
def sampleState : EntryState :=
  { sourceText := "old"
    textId := 1
    targetText := "previous"
    showEntryPanel := true
    sourceTextRect := { left := 1, right := 2, top := 3, bottom := 4 }
    targetLanguage := LanguageEnum.English
    idCounter := 1 }

/-- Concrete collapsed selection. -/
def sampleCollapsed : Selection :=
  { isCollapsed := true
    rect := { left := 5, right := 6, top := 7, bottom := 8 }
    text := "y" }

/-- Concrete live (non-collapsed) selection. -/
def sampleSelection : Selection :=
  { isCollapsed := false
    rect := { left := 1, right := 2, top := 3, bottom := 4 }
    text := "hola" }

theorem listen_of_ne (s : EntryState) (m : PortMessage)
    (h : m.uniqueId ≠ s.textId) : listen s m = s := by
  rcases m with ⟨id, p⟩
  cases p <;> simp_all [listen]

theorem listen_textId (s : EntryState) (m : PortMessage) :
    (listen s m).textId = s.textId := by
  rcases m with ⟨id, p⟩
  cases p <;> simp only [listen] <;> split <;> rfl

theorem listen_idCounter (s : EntryState) (m : PortMessage) :
    (listen s m).idCounter = s.idCounter := by
  rcases m with ⟨id, p⟩
  cases p <;> simp only [listen] <;> split <;> rfl

theorem foldl_listen_textId (ms : List PortMessage) (s : EntryState) :
    (List.foldl listen s ms).textId = s.textId := by
  induction ms generalizing s with
  | nil => rfl
  | cons m ms ih => rw [List.foldl_cons, ih, listen_textId]

theorem handleScroll_textId (s : EntryState) (osel : Option Selection) :
    (handleScroll s osel).textId = s.textId := by
  unfold handleScroll
  split
  · rfl
  · cases osel with
    | none => rfl
    | some sel => simp only; split <;> rfl

theorem handleScroll_idCounter (s : EntryState) (osel : Option Selection) :
    (handleScroll s osel).idCounter = s.idCounter := by
  unfold handleScroll
  split
  · rfl
  · cases osel with
    | none => rfl
    | some sel => simp only; split <;> rfl

theorem handleMouseDown_textId (s : EntryState) (tag : String) :
    (handleMouseDown s tag).textId = s.textId := by
  unfold handleMouseDown
  split <;> rfl

theorem handleMouseDown_idCounter (s : EntryState) (tag : String) :
    (handleMouseDown s tag).idCounter = s.idCounter := by
  unfold handleMouseDown
  split <;> rfl

theorem step_idCounter_le (maxLen : Nat) (s : EntryState) (e : Event) :
    s.idCounter ≤ (step maxLen s e).idCounter := by
  cases e with
  | hotkey osel =>
      cases osel with
      | none => exact Nat.le_refl _
      | some sel =>
          by_cases h : sel.isCollapsed <;>
            simp [step, stepEmit, handleHotkey, getTranslatedText, h]
  | portMsg m => simp [step, stepEmit, listen_idCounter]
  | languageChange language =>
      simp [step, stepEmit, handleTargetLanguageChange, getTranslatedText]
  | scroll osel => simp [step, stepEmit, handleScroll_idCounter]
  | mouseDown tag => simp [step, stepEmit, handleMouseDown_idCounter]

theorem step_textId_le (maxLen : Nat) (s : EntryState) (e : Event)
    (h : s.textId ≤ s.idCounter) :
    (step maxLen s e).textId ≤ (step maxLen s e).idCounter := by
  cases e with
  | hotkey osel =>
      cases osel with
      | none => exact h
      | some sel =>
          by_cases hc : sel.isCollapsed
          · simpa [step, stepEmit, handleHotkey, hc] using h
          · simp [step, stepEmit, handleHotkey, getTranslatedText, hc]
  | portMsg m => simpa [step, stepEmit, listen_idCounter, listen_textId] using h
  | languageChange language =>
      simp [step, stepEmit, handleTargetLanguageChange, getTranslatedText]
  | scroll osel =>
      simpa [step, stepEmit, handleScroll_idCounter, handleScroll_textId] using h
  | mouseDown tag =>
      simpa [step, stepEmit, handleMouseDown_idCounter, handleMouseDown_textId] using h

theorem emit_id_le (maxLen : Nat) (s : EntryState) (e : Event) (r : Request)
    (h : (stepEmit maxLen s e).2 = some r) :
    r.uniqueId ≤ (step maxLen s e).idCounter := by
  cases e with
  | hotkey osel =>
      cases osel with
      | none => simp [stepEmit, handleHotkey] at h
      | some sel =>
          by_cases hc : sel.isCollapsed
          · simp [stepEmit, handleHotkey, hc] at h
          · simp only [stepEmit, handleHotkey, hc, Bool.false_eq_true, if_false,
              Option.some.injEq] at h
            subst h
            simp [step, stepEmit, handleHotkey, getTranslatedText, hc]
  | portMsg m => simp [stepEmit] at h
  | languageChange language =>
      simp only [stepEmit, Option.some.injEq] at h
      subst h
      simp [step, stepEmit, handleTargetLanguageChange, getTranslatedText]
  | scroll osel => simp [stepEmit] at h
  | mouseDown tag => simp [stepEmit] at h

theorem run_idCounter_le (maxLen : Nat) (es : List Event) (s : EntryState) :
    s.idCounter ≤ (run maxLen s es).idCounter := by
  induction es generalizing s with
  | nil => exact Nat.le_refl _
  | cons e es ih =>
      exact Nat.le_trans (step_idCounter_le maxLen s e) (ih (step maxLen s e))

theorem run_textId_le (maxLen : Nat) (es : List Event) (s : EntryState)
    (h : s.textId ≤ s.idCounter) :
    (run maxLen s es).textId ≤ (run maxLen s es).idCounter := by
  induction es generalizing s with
  | nil => exact h
  | cons e es ih => exact ih (step maxLen s e) (step_textId_le maxLen s e h)

theorem issued_le (maxLen : Nat) (es : List Event) (s : EntryState) (id : Nat)
    (h : id ∈ issuedIds maxLen s es) : id ≤ (run maxLen s es).idCounter := by
  induction es generalizing s with
  | nil => simp [issuedIds] at h
  | cons e es ih =>
      rw [issuedIds] at h
      rcases List.mem_append.1 h with h1 | h2
      · rcases hr : (stepEmit maxLen s e).2 with _ | r
        · rw [hr] at h1; simp at h1
        · rw [hr] at h1
          simp at h1
          subst h1
          exact Nat.le_trans (emit_id_le maxLen s e r hr)
            (run_idCounter_le maxLen es (step maxLen s e))
      · exact ih (step maxLen s e) h2

theorem strConcat_append_init (l : List String) (a : String) :
    List.foldl (fun x y => x ++ y) a l = a ++ strConcat l := by
  induction l generalizing a with
  | nil => exact (String.append_empty a).symm
  | cons c l ih =>
      rw [List.foldl_cons, ih (a ++ c)]
      have hc : strConcat (c :: l) = c ++ strConcat l := by
        show List.foldl (fun x y => x ++ y) "" (c :: l) = c ++ strConcat l
        rw [List.foldl_cons, String.empty_append]
        exact ih c
      rw [hc, String.append_assoc]

theorem strConcat_cons (b : String) (l : List String) :
    strConcat (b :: l) = b ++ strConcat l := by
  show List.foldl (fun x y => x ++ y) "" (b :: l) = b ++ strConcat l
  rw [List.foldl_cons, String.empty_append]
  exact strConcat_append_init l b

theorem listen_parts (id : Nat) (frags : List String) (s : EntryState)
    (h : id = s.textId) :
    (List.foldl listen s
        (frags.map fun f => { uniqueId := id, payload := MessagePayload.part f })).targetText
      = s.targetText ++ strConcat frags := by
  induction frags generalizing s with
  | nil => exact (String.append_empty _).symm
  | cons f frags ih =>
      rw [List.map_cons, List.foldl_cons]
      have hstep : listen s { uniqueId := id, payload := MessagePayload.part f }
          = { s with targetText := s.targetText ++ f } := by
        simp [listen, h]
      rw [hstep, ih { s with targetText := s.targetText ++ f } h,
        strConcat_cons, String.append_assoc]

/-- C1: staleness guard. Start session A from any state, run any further
events, start session B, and deliver any port messages: a further fragment or
error message tagged with the id of session A leaves the state exactly
unchanged, because the id of B (and of any later session) is strictly larger
than that of A and the listener drops every mismatched id. The closure texts
cA and cB feeding the fallback of each start are arbitrary. -/
theorem c1_stale_session_inert (maxLen : Nat) (s : EntryState) (cA tA : String)
    (es : List Event) (cB tB : String) (ms : List PortMessage) (m : PortMessage)
    (h : m.uniqueId = ((getTranslatedText cA s tA).1).textId) :
    listen
        (List.foldl listen
          ((getTranslatedText cB (run maxLen ((getTranslatedText cA s tA).1) es) tB).1) ms) m
      = List.foldl listen
          ((getTranslatedText cB (run maxLen ((getTranslatedText cA s tA).1) es) tB).1) ms := by
  apply listen_of_ne
  rw [h, foldl_listen_textId]
  have h1 : ((getTranslatedText cA s tA).1).textId = s.idCounter + 1 := rfl
  have h2 : ((getTranslatedText cA s tA).1).idCounter = s.idCounter + 1 := rfl
  have h3 := run_idCounter_le maxLen es ((getTranslatedText cA s tA).1)
  have h4 : ((getTranslatedText cB (run maxLen ((getTranslatedText cA s tA).1) es) tB).1).textId
      = (run maxLen ((getTranslatedText cA s tA).1) es).idCounter + 1 := rfl
  omega

/-- Witness for C1 at concrete inputs: session A (id 1) on "a", session B
(id 2) on "b", then a late fragment tagged 1 is inert. -/
theorem c1_stale_session_inert_witness :
    listen
        (List.foldl listen
          ((getTranslatedText "" (run 100 ((getTranslatedText "" (initState none) "a").1) []) "b").1) [])
        { uniqueId := 1, payload := MessagePayload.part "late" }
      = List.foldl listen
          ((getTranslatedText "" (run 100 ((getTranslatedText "" (initState none) "a").1) []) "b").1) [] :=
  c1_stale_session_inert 100 (initState none) "" "a" [] "" "b" []
    { uniqueId := 1, payload := MessagePayload.part "late" } rfl

/-- C2: fragment accumulation. Starting a session and then delivering any list
of TRANSLATE_TEXT_PART messages tagged with the current session id, in order
and with no intervening start, leaves the displayed targetText equal to the
concatenation of the fragments in arrival order. The closure text c feeding
the fallback of the start is arbitrary. -/
theorem c2_fragment_accumulation (c : String) (s : EntryState) (t : String)
    (frags : List String) :
    (List.foldl listen ((getTranslatedText c s t).1)
        (frags.map fun f =>
          { uniqueId := ((getTranslatedText c s t).1).textId
            payload := MessagePayload.part f })).targetText
      = strConcat frags := by
  rw [listen_parts ((getTranslatedText c s t).1).textId frags ((getTranslatedText c s t).1) rfl]
  exact String.empty_append _

/-- C3: session start. In any reachable state, each of the two ways a session
starts in the program sends exactly the request carrying the new session id
and the new session's sourceText, resets the displayed text to empty, and
issues an id not equal to any previously issued id nor to the current one.
On the hotkey path the new sourceText is the captured selection text, which
ranges over every string (the empty string arises from a whitespace-only live
selection, and the mount-bound closure's fallback value is the empty string
too, so the sent text is the captured text even then); on the language-change
path it is the unchanged sourceText, and the fallback is the same variable. -/
theorem c3_session_start (maxLen : Nat) (stored : Option LanguageEnum)
    (es : List Event) (sel : Selection) (language : LanguageEnum)
    (h : sel.isCollapsed = false) :
    ((handleHotkey maxLen (run maxLen (initState stored) es) (some sel)).2
        = some { uniqueId :=
                   ((handleHotkey maxLen (run maxLen (initState stored) es) (some sel)).1).textId
                 text :=
                   ((handleHotkey maxLen (run maxLen (initState stored) es) (some sel)).1).sourceText })
    ∧ ((handleHotkey maxLen (run maxLen (initState stored) es) (some sel)).1).sourceText
        = (sel.text.trim).take maxLen
    ∧ ((handleHotkey maxLen (run maxLen (initState stored) es) (some sel)).1).targetText = ""
    ∧ ((handleHotkey maxLen (run maxLen (initState stored) es) (some sel)).1).textId
        ∉ issuedIds maxLen (initState stored) es
    ∧ ((handleHotkey maxLen (run maxLen (initState stored) es) (some sel)).1).textId
        ≠ (run maxLen (initState stored) es).textId
    ∧ ((handleTargetLanguageChange (run maxLen (initState stored) es) language).2
        = { uniqueId :=
              ((handleTargetLanguageChange (run maxLen (initState stored) es) language).1).textId
            text :=
              ((handleTargetLanguageChange (run maxLen (initState stored) es) language).1).sourceText })
    ∧ ((handleTargetLanguageChange (run maxLen (initState stored) es) language).1).sourceText
        = (run maxLen (initState stored) es).sourceText
    ∧ ((handleTargetLanguageChange (run maxLen (initState stored) es) language).1).targetText = ""
    ∧ ((handleTargetLanguageChange (run maxLen (initState stored) es) language).1).textId
        ∉ issuedIds maxLen (initState stored) es
    ∧ ((handleTargetLanguageChange (run maxLen (initState stored) es) language).1).textId
        ≠ (run maxLen (initState stored) es).textId := by
  have hhotId : ((handleHotkey maxLen (run maxLen (initState stored) es) (some sel)).1).textId
      = (run maxLen (initState stored) es).idCounter + 1 := by
    simp [handleHotkey, getTranslatedText, h]
  have hlangId : ((handleTargetLanguageChange (run maxLen (initState stored) es) language).1).textId
      = (run maxLen (initState stored) es).idCounter + 1 := rfl
  have hinv := run_textId_le maxLen es (initState stored) (Nat.le_refl 0)
  refine ⟨?_, ?_, ?_, ?_, ?_, ?_, rfl, rfl, ?_, ?_⟩
  · by_cases hc : (sel.text.trim).take maxLen = "" <;>
      simp [handleHotkey, getTranslatedText, h, hc]
  · simp [handleHotkey, getTranslatedText, h]
  · simp [handleHotkey, getTranslatedText, h]
  · intro hmem
    have hle := issued_le maxLen es (initState stored) _ hmem
    omega
  · omega
  · by_cases hc : (run maxLen (initState stored) es).sourceText = "" <;>
      simp [handleTargetLanguageChange, getTranslatedText, hc]
  · intro hmem
    have hle := issued_le maxLen es (initState stored) _ hmem
    omega
  · omega

/-- Witness for C3 at concrete inputs: the sample live selection captured from
the initial state sends exactly the new session id and the captured text. -/
theorem c3_session_start_witness :
    (handleHotkey 100 (run 100 (initState none) []) (some sampleSelection)).2
      = some { uniqueId :=
                 ((handleHotkey 100 (run 100 (initState none) []) (some sampleSelection)).1).textId
               text :=
                 ((handleHotkey 100 (run 100 (initState none) []) (some sampleSelection)).1).sourceText } :=
  (c3_session_start 100 none [] sampleSelection LanguageEnum.French rfl).1

/-- C4: language-change restart. In any reachable state, selecting a target
language resets the displayed text to empty, keeps the same sourceText,
records the new language, issues a session id different from the current one,
and sends a request carrying the new id and the unchanged sourceText. -/
theorem c4_language_change_restart (maxLen : Nat) (stored : Option LanguageEnum)
    (es : List Event) (language : LanguageEnum) :
    ((handleTargetLanguageChange (run maxLen (initState stored) es) language).1).targetText = ""
    ∧ ((handleTargetLanguageChange (run maxLen (initState stored) es) language).1).sourceText
        = (run maxLen (initState stored) es).sourceText
    ∧ ((handleTargetLanguageChange (run maxLen (initState stored) es) language).1).targetLanguage
        = language
    ∧ ((handleTargetLanguageChange (run maxLen (initState stored) es) language).1).textId
        ≠ (run maxLen (initState stored) es).textId
    ∧ ((handleTargetLanguageChange (run maxLen (initState stored) es) language).2).uniqueId
        = ((handleTargetLanguageChange (run maxLen (initState stored) es) language).1).textId
    ∧ ((handleTargetLanguageChange (run maxLen (initState stored) es) language).2).text
        = (run maxLen (initState stored) es).sourceText := by
  refine ⟨rfl, rfl, rfl, ?_, rfl, ?_⟩
  · have hinv := run_textId_le maxLen es (initState stored) (Nat.le_refl 0)
    have h1 : ((handleTargetLanguageChange (run maxLen (initState stored) es) language).1).textId
        = (run maxLen (initState stored) es).idCounter + 1 := rfl
    omega
  · by_cases h : (run maxLen (initState stored) es).sourceText = "" <;>
      simp [handleTargetLanguageChange, getTranslatedText, h]

/-- C5: error surfacing. A TRANSLATE_TEXT_ERROR message whose id equals the
current session id makes the displayed text exactly the error message,
replacing whatever was accumulated; one with a mismatched id leaves the state
unchanged. -/
theorem c5_error_replaces_text (s : EntryState) (id : Nat) (message : String) :
    listen s { uniqueId := id, payload := MessagePayload.error message }
      = if id = s.textId then { s with targetText := message } else s := by
  by_cases h : id = s.textId <;> simp [listen, h]

/-- C6 counterexample: the hotkey firing on a collapsed selection from a state
whose rect is nonzero hides the panel but leaves the rect untouched, so the
rect is not reset to the zeroed state the claim demands. -/
theorem c6_counterexample :
    ((handleHotkey 100 sampleState (some sampleCollapsed)).1).showEntryPanel = false
    ∧ ((handleHotkey 100 sampleState (some sampleCollapsed)).1).sourceTextRect
        ≠ { left := 0, right := 0, top := 0, bottom := 0 } := by
  refine ⟨rfl, ?_⟩
  decide

/-- C6 amended: the hotkey on a collapsed selection only hides the panel,
leaving the rect as it was; the hotkey on an absent selection changes nothing;
a pointer-down whose target is not the extension element hides the panel and
zeroes the rect, while one on the extension element (localName plasmo-csui)
changes nothing. -/
theorem c6_visual_reset (maxLen : Nat) (s : EntryState) (sel : Selection)
    (tag : String) :
    (sel.isCollapsed = true →
        handleHotkey maxLen s (some sel) = ({ s with showEntryPanel := false }, none))
    ∧ handleHotkey maxLen s none = (s, none)
    ∧ handleMouseDown s tag
        = (if tag = "plasmo-csui" then s
           else { s with showEntryPanel := false
                         sourceTextRect := { left := 0, right := 0, top := 0, bottom := 0 } }) := by
  refine ⟨?_, rfl, ?_⟩
  · intro h
    simp [handleHotkey, h]
  · by_cases h : tag = "plasmo-csui" <;> simp [handleMouseDown, h]

/-- Witness for C6 amended at concrete inputs: a collapsed-selection hotkey
press from the sample state hides the panel and changes nothing else. -/
theorem c6_visual_reset_witness :
    handleHotkey 100 sampleState (some sampleCollapsed)
      = ({ sampleState with showEntryPanel := false }, none) :=
  (c6_visual_reset 100 sampleState sampleCollapsed "div").1 rfl

/-- C7: anchor computation. For a live selection the hotkey and the scroll
handler both store the selection rect unchanged, and the anchor derived from a
stored rect is the horizontal midpoint of the rect with a vertical position 10
pixels below its bottom. -/
theorem c7_anchor_formula (maxLen : Nat) (s : EntryState) (sel : Selection)
    (h1 : sel.isCollapsed = false) (h2 : s.showEntryPanel = true) :
    ((handleHotkey maxLen s (some sel)).1).sourceTextRect = sel.rect
    ∧ (handleScroll s (some sel)).sourceTextRect = sel.rect
    ∧ entryPanelPosition sel.rect
        = { x := sel.rect.left + (sel.rect.right - sel.rect.left) / 2
            y := sel.rect.bottom + 10 }
    ∧ (entryPanelPosition sel.rect).x = (sel.rect.left + sel.rect.right) / 2 := by
  refine ⟨?_, ?_, rfl, ?_⟩
  · simp [handleHotkey, getTranslatedText, h1]
  · simp [handleScroll, h2, h1]
  · show sel.rect.left + (sel.rect.right - sel.rect.left) / 2
        = (sel.rect.left + sel.rect.right) / 2
    ring

/-- Witness for C7 at concrete inputs: the sample live selection with rect
(1, 2, 3, 4) from the visible sample state. -/
theorem c7_anchor_formula_witness :
    ((handleHotkey 100 sampleState (some sampleSelection)).1).sourceTextRect = sampleSelection.rect
    ∧ (handleScroll sampleState (some sampleSelection)).sourceTextRect = sampleSelection.rect
    ∧ entryPanelPosition sampleSelection.rect
        = { x := sampleSelection.rect.left
              + (sampleSelection.rect.right - sampleSelection.rect.left) / 2
            y := sampleSelection.rect.bottom + 10 }
    ∧ (entryPanelPosition sampleSelection.rect).x
        = (sampleSelection.rect.left + sampleSelection.rect.right) / 2 :=
  c7_anchor_formula 100 sampleState sampleSelection rfl rfl

/-- C8: capture truncation. The hotkey on a live selection stores as
sourceText the trimmed selection text cut to at most maxTranslationLength
characters, so its length never exceeds the cap; the excess is dropped with no
error path. -/
theorem c8_capture_truncation (maxLen : Nat) (s : EntryState) (sel : Selection)
    (h : sel.isCollapsed = false) :
    ((handleHotkey maxLen s (some sel)).1).sourceText = (sel.text.trim).take maxLen
    ∧ (((handleHotkey maxLen s (some sel)).1).sourceText).length ≤ maxLen := by
  have hs : ((handleHotkey maxLen s (some sel)).1).sourceText
      = (sel.text.trim).take maxLen := by
    simp [handleHotkey, getTranslatedText, h]
  refine ⟨hs, ?_⟩
  rw [hs, String.take_eq]
  exact List.length_take_le maxLen sel.text.trim.data

/-- Witness for C8 at concrete inputs: capturing the sample live selection
with cap 100. -/
theorem c8_capture_truncation_witness :
    ((handleHotkey 100 sampleState (some sampleSelection)).1).sourceText
        = (sampleSelection.text.trim).take 100
    ∧ (((handleHotkey 100 sampleState (some sampleSelection)).1).sourceText).length ≤ 100 :=
  c8_capture_truncation 100 sampleState sampleSelection rfl

/-- C9: scroll recompute frame. The scroll handler changes nothing when the
panel is hidden, when the selection is absent, or when it is collapsed; when
the panel is visible and a live selection exists it rewrites only
sourceTextRect, leaving every other field of the state unchanged. -/
theorem c9_scroll_frame (s : EntryState) (osel : Option Selection) :
    (s.showEntryPanel = false → handleScroll s osel = s)
    ∧ handleScroll s none = s
    ∧ (∀ sel, osel = some sel → sel.isCollapsed = true → handleScroll s osel = s)
    ∧ (∀ sel, osel = some sel → sel.isCollapsed = false → s.showEntryPanel = true →
        handleScroll s osel = { s with sourceTextRect := sel.rect }) := by
  refine ⟨?_, ?_, ?_, ?_⟩
  · intro h
    cases osel <;> simp [handleScroll, h]
  · by_cases h : s.showEntryPanel <;> simp [handleScroll, h]
  · rintro sel rfl hc
    by_cases h : s.showEntryPanel <;> simp [handleScroll, h, hc]
  · rintro sel rfl hc hp
    simp [handleScroll, hp, hc]

/-- Witness for C9 at concrete inputs: scrolling with the visible sample state
and the sample live selection rewrites only the rect. -/
theorem c9_scroll_frame_witness :
    handleScroll sampleState (some sampleSelection)
      = { sampleState with sourceTextRect := sampleSelection.rect } :=
  (c9_scroll_frame sampleState (some sampleSelection)).2.2.2 sampleSelection rfl rfl rfl

/-- C10: no terminal state. After an error message with the current id has
replaced the displayed text with the error message, a later fragment carrying
the same id is still accepted and appended to the displayed error text. -/
theorem c10_no_terminal_state (s : EntryState) (id : Nat) (message frag : String)
    (h : id = s.textId) :
    (listen (listen s { uniqueId := id, payload := MessagePayload.error message })
        { uniqueId := id, payload := MessagePayload.part frag }).targetText
      = message ++ frag := by
  simp [listen, h]

/-- Witness for C10 at concrete inputs: the sample state with current id 1
receives an error and then a fragment with id 1. -/
theorem c10_no_terminal_state_witness :
    (listen (listen sampleState { uniqueId := 1, payload := MessagePayload.error "rate limited" })
        { uniqueId := 1, payload := MessagePayload.part "more" }).targetText
      = "rate limited" ++ "more" :=
  c10_no_terminal_state sampleState 1 "rate limited" "more" rfl

end NovaTranslate
